import Mathlib

/-
Verification development for the python-rinha-backend-2025 payment router.

The Python source is shallowly embedded:
  * `src/app.py`'s `PaymentProcessor.check_health`, `process_payment`,
    `process_with_fallback`, `save_payment`, `cache_payment`
  * `src/optimizations.py`'s `PerformanceOptimizer.is_circuit_open`,
    `record_failure`, `record_success`
Python dicts become association lists, `time.time()` becomes an integer
oracle supplied by the environment, network outcomes become explicit oracle
values, and exception propagation becomes `Except`.
-/

namespace Rinha

/-- Python dict with string keys, as an association list; `dictSet` shadows
older bindings, `dictGet` finds the most recent one. -/
abbrev Dict (α : Type) := List (String × α)

def dictGet {α : Type} : Dict α → String → Option α
  | [], _ => none
  | (k, v) :: rest, key => if k = key then some v else dictGet rest key

def dictSet {α : Type} (d : Dict α) (k : String) (v : α) : Dict α :=
  (k, v) :: d

theorem dictGet_set_eq {α : Type} (d : Dict α) (k : String) (v : α) :
    dictGet (dictSet d k v) k = some v := by
  simp [dictGet, dictSet]

theorem dictGet_set_ne {α : Type} (d : Dict α) (k k' : String) (v : α)
    (h : k ≠ k') : dictGet (dictSet d k v) k' = dictGet d k' := by
  simp [dictGet, dictSet, h]

/-- Substring containment on character lists: `lPrefixOf sub s` means `sub`
is an initial segment of `s`. -/
def lPrefixOf : List Char → List Char → Bool
  | [], _ => true
  | _ :: _, [] => false
  | a :: as, b :: bs => a = b && lPrefixOf as bs

/-- `lContainsSub sub s` is Python's `sub in s` on character lists. -/
def lContainsSub (sub : List Char) : List Char → Bool
  | [] => lPrefixOf sub []
  | s@(_ :: rest) => lPrefixOf sub s || lContainsSub sub rest

/-- Python's `"payment-processor" in url`, the test `app.py` uses to decide
the simulated-processor path (lines 92, 136, 199). -/
def containsPP (url : String) : Bool :=
  lContainsSub "payment-processor".data url.data

/-- The two configured URLs (`app.py` lines 26-27, default values). -/
def DEFAULT_PAYMENT_PROCESSOR_URL : String := "http://payment-processor-default:8080"

def FALLBACK_PAYMENT_PROCESSOR_URL : String := "http://payment-processor-fallback:8080"

/-- A health-check result dict as built by `check_health`: a `status` field,
optionally a `processor` field, optionally an `error` field. -/
structure Health where
  status : String
  processor : Option String
  error : Option String
deriving DecidableEq, Repr

def unknownHealth : Health := ⟨"unknown", none, none⟩

/-- The dict returned on the simulated path of `check_health` (app.py line 94). -/
def simHealth : Health := ⟨"healthy", some "local-simulator", none⟩

/-- Outcome of a live GET against a health endpoint: a 200 with a JSON body,
a non-200 status code, or a raised transport exception. -/
inductive ProbeResult
  | ok (h : Health)
  | httpErr (code : Int)
  | transportErr (msg : String)
deriving DecidableEq, Repr

/-- The health dict `check_health` produces from a live probe outcome
(app.py lines 102-111). -/
def probeHealth : ProbeResult → Health
  | .ok h => h
  | .httpErr c => ⟨"unhealthy", none, some ("HTTP " ++ toString c)⟩
  | .transportErr m => ⟨"unhealthy", none, some m⟩

/-- The mutable health state of a `PaymentProcessor` instance:
`self.health_cache` and `self.last_health_check` (app.py lines 79-80). -/
structure ProcState where
  health_cache : Dict Health
  last_health_check : Dict Int
deriving DecidableEq, Repr

def initState : ProcState := ⟨[], []⟩

structure HealthOut where
  result : Health
  state : ProcState
  probed : Bool
deriving DecidableEq, Repr

/-- The body of `check_health` past the rate-limit guard (app.py lines 91-111):
simulated URLs short-circuit to `simHealth`; otherwise the probe outcome is
consulted, and only a 200 outcome updates the caches. `probed` records
whether a live network call was made. -/
def check_health_live (st : ProcState) (url : String) (now : Int)
    (probe : ProbeResult) : HealthOut :=
  if containsPP url then
    ⟨simHealth,
      ⟨dictSet st.health_cache url simHealth, dictSet st.last_health_check url now⟩,
      false⟩
  else
    match probe with
    | .ok h =>
        ⟨h, ⟨dictSet st.health_cache url h, dictSet st.last_health_check url now⟩, true⟩
    | .httpErr c => ⟨probeHealth (.httpErr c), st, true⟩
    | .transportErr m => ⟨probeHealth (.transportErr m), st, true⟩

/-- `PaymentProcessor.check_health` (app.py lines 82-111): a rate-limit guard
returns the cached dict when the URL was stamped less than 5 seconds ago,
else the live body runs. -/
def check_health (st : ProcState) (url : String) (now : Int)
    (probe : ProbeResult) : HealthOut :=
  match dictGet st.last_health_check url with
  | some t =>
      if now - t < 5 then
        ⟨(dictGet st.health_cache url).getD unknownHealth, st, false⟩
      else
        check_health_live st url now probe
  | none => check_health_live st url now probe

/-- One entry of `self.circuit_breaker[url]` (optimizations.py lines 61-68). -/
structure CBEntry where
  last_failure : Int
  failure_count : Nat
deriving DecidableEq, Repr

abbrev CBState := Dict CBEntry

/-- `PerformanceOptimizer.is_circuit_open` (optimizations.py lines 37-57).
Returns the boolean together with the (possibly reset) breaker state, since
the Python method mutates `self.circuit_breaker` on the 30-second reset. -/
def is_circuit_open (cb : CBState) (url : String) (now : Int) : Bool × CBState :=
  match dictGet cb url with
  | none => (false, cb)
  | some e =>
      if 5 ≤ e.failure_count then
        if 30 < now - e.last_failure then
          (false, dictSet cb url ⟨0, 0⟩)
        else
          (true, cb)
      else
        (false, cb)

/-- `PerformanceOptimizer.record_failure` (optimizations.py lines 59-68). -/
def record_failure (cb : CBState) (url : String) (now : Int) : CBState :=
  match dictGet cb url with
  | none => dictSet cb url ⟨now, 1⟩
  | some e => dictSet cb url ⟨now, e.failure_count + 1⟩

/-- `PerformanceOptimizer.record_success` (optimizations.py lines 70-73). -/
def record_success (cb : CBState) (url : String) : CBState :=
  match dictGet cb url with
  | none => cb
  | some e => dictSet cb url ⟨e.last_failure, 0⟩

/-- Pydantic model `PaymentRequest` (app.py lines 32-34); the float amount is
embedded as a rational. -/
structure PaymentRequest where
  amount : Rat
  description : Option String
deriving DecidableEq, Repr

/-- Pydantic model `PaymentResponse` (app.py lines 36-41). -/
structure PaymentResponse where
  id : String
  amount : Rat
  status : String
  processor : String
  timestamp : Int
deriving DecidableEq, Repr

/-- The id built at app.py line 115:
`f"pay_{int(time.time() * 1000)}_{hash(str(payment_request))}"`, as a function
of the millisecond clock reading and of Python's `hash(str(payment_request))`. -/
def paymentId (nowMs : Int) (reqHash : Int) : String :=
  "pay_" ++ toString nowMs ++ "_" ++ toString reqHash

/-- Outcome of one live `POST <url>/payments`: 200, a non-200 status, or a
raised transport exception (timeout included). -/
inductive PayResult
  | ok
  | httpErr (code : Int)
  | transportErr (msg : String)
deriving DecidableEq, Repr

/-- The two configured processor URLs held by a `PaymentProcessor`
(app.py lines 77-78). -/
structure Ctx where
  defaultUrl : String
  fallbackUrl : String
deriving DecidableEq, Repr

/-- `PaymentProcessor()` under the default configuration. -/
def defaultCtx : Ctx := ⟨DEFAULT_PAYMENT_PROCESSOR_URL, FALLBACK_PAYMENT_PROCESSOR_URL⟩

/-- Everything `process_payment` reads from the outside world: the clock
(seconds and milliseconds), Python's hash of the request string, the outcome
of a live health probe against each URL, and the outcome of the k-th live
payment POST issued during this invocation. -/
structure Env where
  now : Int
  nowMs : Int
  reqHash : Int
  defaultProbe : ProbeResult
  fallbackProbe : ProbeResult
  payEnv : Nat → PayResult

/-- Observable side effects of one `process_payment` invocation, in order:
live health probes, live payment POSTs, the simulated-latency sleep, the
database insert and the Redis hash write. Circuit-breaker recording events
are included so their absence is expressible: `app.py` never imports the
`PerformanceOptimizer` instance, so the payment path can never emit them. -/
inductive Event
  | probe (url : String)
  | payPost (url : String)
  | sleepMs (ms : Nat)
  | persist (id : String)
  | cacheWrite (id : String)
  | recordFailureEv (url : String)
  | recordSuccessEv (url : String)
deriving DecidableEq, Repr

structure PayOut where
  result : Except String PaymentResponse
  state : ProcState
  trace : List Event
  nextK : Nat
deriving Repr

/-- `PaymentProcessor.process_with_fallback` (app.py lines 195-240).
`k` indexes the next unused payment-POST outcome in `env.payEnv`. A non-200
raises at line 237, is caught at line 238 and re-raised at line 240, so every
failure surfaces as the same "Payment processing failed" exception. -/
def process_with_fallback (ctx : Ctx) (req : PaymentRequest) (pid : String)
    (env : Env) (st : ProcState) (k : Nat) : PayOut :=
  if containsPP ctx.fallbackUrl then
    let r : PaymentResponse := ⟨pid, req.amount, "processed", "local-simulator-fallback", env.now⟩
    ⟨.ok r, st, [.sleepMs 100, .persist pid, .cacheWrite pid], k⟩
  else
    match env.payEnv k with
    | .ok =>
        let r : PaymentResponse := ⟨pid, req.amount, "processed", "fallback", env.now⟩
        ⟨.ok r, st, [.payPost ctx.fallbackUrl, .persist pid, .cacheWrite pid], k + 1⟩
    | _ =>
        ⟨.error "Payment processing failed", st, [.payPost ctx.fallbackUrl], k + 1⟩

/-- The `try` block of `process_payment` (app.py lines 134-193) together with
its `except` handler, for the already-selected `purl`/`pname`.
`fbHealthy` is `fallback_health.get("status") == "healthy"` (line 182).
Control flow of the source:
  * simulated URL: sleep, build the record, persist, cache, return (136-154);
  * live 200: build the record tagged `pname`, persist, cache, return (163-179);
  * live non-200 with `pname == "default"` and a healthy fallback: call
    `process_with_fallback` inside the `try` (183); if that call raises, the
    exception is caught at 187 and — because `pname == "default"` — the
    handler calls `process_with_fallback` a second time (191);
  * live non-200 otherwise: the `HTTPException` raised at 185 is itself
    caught at 187; with `pname == "default"` the handler falls over (191),
    otherwise it re-raises (193);
  * transport exception during the POST: caught at 187, same handler. -/
def tryAttempt (ctx : Ctx) (req : PaymentRequest) (pid : String) (env : Env)
    (st : ProcState) (purl pname : String) (fbHealthy : Bool) : PayOut :=
  if containsPP purl then
    let r : PaymentResponse := ⟨pid, req.amount, "processed", "local-simulator", env.now⟩
    ⟨.ok r, st, [.sleepMs 100, .persist pid, .cacheWrite pid], 0⟩
  else
    match env.payEnv 0 with
    | .ok =>
        let r : PaymentResponse := ⟨pid, req.amount, "processed", pname, env.now⟩
        ⟨.ok r, st, [.payPost purl, .persist pid, .cacheWrite pid], 1⟩
    | .httpErr _ =>
        if pname = "default" && fbHealthy then
          let fb := process_with_fallback ctx req pid env st 1
          match fb.result with
          | .ok r => ⟨.ok r, fb.state, .payPost purl :: fb.trace, fb.nextK⟩
          | .error _ =>
              let fb2 := process_with_fallback ctx req pid env fb.state fb.nextK
              ⟨fb2.result, fb2.state, .payPost purl :: (fb.trace ++ fb2.trace), fb2.nextK⟩
        else
          if pname = "default" then
            let fb := process_with_fallback ctx req pid env st 1
            ⟨fb.result, fb.state, .payPost purl :: fb.trace, fb.nextK⟩
          else
            ⟨.error "Payment processing failed", st, [.payPost purl], 1⟩
    | .transportErr _ =>
        if pname = "default" then
          let fb := process_with_fallback ctx req pid env st 1
          ⟨fb.result, fb.state, .payPost purl :: fb.trace, fb.nextK⟩
        else
          ⟨.error "Payment processing failed", st, [.payPost purl], 1⟩

/-- The selection if/elif/else of `process_payment` (app.py lines 122-131):
the URL it assigns to `processor_url`. -/
def selectUrl (ctx : Ctx) (h1 h2 : Health) : String :=
  if h1.status = "healthy" then ctx.defaultUrl
  else if h2.status = "healthy" then ctx.fallbackUrl
  else ctx.defaultUrl

/-- The same selection's `processor_name` assignment. -/
def selectName (h1 h2 : Health) : String :=
  if h1.status = "healthy" then "default"
  else if h2.status = "healthy" then "fallback"
  else "default"

/-- `PaymentProcessor.process_payment` (app.py lines 113-193): generate the
id, health-check both URLs, select default when its status is healthy, else
fallback when its status is healthy, else default anyway, then run the
`try` block. -/
def process_payment (ctx : Ctx) (req : PaymentRequest) (env : Env)
    (st : ProcState) : PayOut :=
  let pid := paymentId env.nowMs env.reqHash
  let h1 := check_health st ctx.defaultUrl env.now env.defaultProbe
  let h2 := check_health h1.state ctx.fallbackUrl env.now env.fallbackProbe
  let probeEvents :=
    (if h1.probed then [Event.probe ctx.defaultUrl] else []) ++
    (if h2.probed then [Event.probe ctx.fallbackUrl] else [])
  let att := tryAttempt ctx req pid env h2.state
    (selectUrl ctx h1.result h2.result) (selectName h1.result h2.result)
    (h2.result.status = "healthy")
  ⟨att.result, att.state, probeEvents ++ att.trace, att.nextK⟩

/-- Outcome of one database or Redis operation as seen by the `try` bodies of
`save_payment` / `cache_payment`: it either completes or raises. -/
inductive OpResult
  | ok
  | err (msg : String)
deriving DecidableEq, Repr

/-- The `try` body of `save_payment` (app.py lines 244-256): the session
commits or raises. -/
def save_payment_body (dbOutcome : OpResult) : Except String Unit :=
  match dbOutcome with
  | .ok => .ok ()
  | .err m => .error m

/-- `PaymentProcessor.save_payment` (app.py lines 242-258): the body runs
under `try`, and any exception is logged and swallowed by the bare
`except` clause. -/
def save_payment (dbOutcome : OpResult) : Except String Unit :=
  match save_payment_body dbOutcome with
  | .ok u => .ok u
  | .error _ => .ok ()

/-- The `try` body of `cache_payment` (app.py lines 262-268): the Redis
`hset` completes or raises. -/
def cache_payment_body (cacheOutcome : OpResult) : Except String Unit :=
  match cacheOutcome with
  | .ok => .ok ()
  | .err m => .error m

/-- `PaymentProcessor.cache_payment` (app.py lines 260-270): same swallowing
`except` as `save_payment`. -/
def cache_payment (cacheOutcome : OpResult) : Except String Unit :=
  match cache_payment_body cacheOutcome with
  | .ok u => .ok u
  | .error _ => .ok ()

/-- The tail of every success branch of `process_payment` (app.py lines
148-154, 173-179, 211-214, 232-235): persist, cache, then return the
already-built response. -/
def finishSuccess (r : PaymentResponse) (dbOutcome cacheOutcome : OpResult) :
    Except String PaymentResponse := do
  let _ ← save_payment dbOutcome
  let _ ← cache_payment cacheOutcome
  pure r

/-- The payment POSTs of a trace, in order. -/
def payPosts (tr : List Event) : List String :=
  tr.filterMap (fun e =>
    match e with
    | .payPost u => some u
    | _ => none)

/-- `record_failure` applied once per timestamp in the list, left to right. -/
def recordFailures (cb : CBState) (url : String) (ts : List Int) : CBState :=
  ts.foldl (fun c t => record_failure c url t) cb

/-- The consecutive-failure count the breaker currently holds for a URL. -/
def cbCount (cb : CBState) (url : String) : Nat :=
  match dictGet cb url with
  | none => 0
  | some e => e.failure_count

/-- A configuration whose URLs do not contain "payment-processor", so every
attempt is a live network call. -/
def extCtx : Ctx := ⟨"http://ext-default:8080", "http://ext-fallback:8080"⟩

def healthyBody : Health := ⟨"healthy", none, none⟩

/-- Environment: default probe fails (500), fallback probe healthy, every
payment POST returns 500. The selector then picks the fallback. -/
def envFbSelected : Env :=
  ⟨1000, 1000000, 42, .httpErr 500, .ok healthyBody, fun _ => .httpErr 500⟩

/-- Environment: both probes healthy, every payment POST returns 500. The
selector picks the default; the non-200 path retries the fallback twice. -/
def envAllPostsFail : Env :=
  ⟨1000, 1000000, 42, .ok healthyBody, .ok healthyBody, fun _ => .httpErr 500⟩

/-- Environment: both probes healthy, the first payment POST raises a
timeout, every later one returns 200. -/
def envFirstPostTimesOut : Env :=
  ⟨1000, 1000000, 42, .ok healthyBody, .ok healthyBody,
    fun k => if k = 0 then .transportErr "timeout" else .ok⟩

/-- Environment for a simulated run (probes are never consulted because the
default URLs short-circuit to the simulator). -/
def envSim : Env :=
  ⟨1000, 2000, 7, .ok healthyBody, .ok healthyBody, fun _ => .ok⟩

/-- Two environments that agree on the millisecond clock and the request
hash but differ elsewhere (the fallback probe outcome). -/
def envHashA : Env :=
  ⟨1000, 1700000000000, 12345, .ok healthyBody, .ok healthyBody, fun _ => .ok⟩

def envHashB : Env :=
  ⟨1000, 1700000000000, 12345, .ok healthyBody, .httpErr 500, fun _ => .ok⟩

/-- A breaker state that is open for `extCtx`'s default URL at time 110. -/
def cbOpenExt : CBState := [("http://ext-default:8080", ⟨100, 5⟩)]

/-- Invariant of simulated URLs: whenever the rate-limit stamp is present,
the cached dict is the simulator's healthy dict. Both maps are empty at
startup, and only the simulated branch of `check_health` ever writes either
map for such a URL. -/
def simInv (st : ProcState) (url : String) : Prop :=
  ∀ t, dictGet st.last_health_check url = some t →
    dictGet st.health_cache url = some simHealth

/-- The attempt stage of `process_payment` under `extCtx` starting from the
fresh state, with both health checks already resolved to their live probe
outcomes (proof abbreviation; see `process_payment_ext_unfold`). -/
def extAttempt (req : PaymentRequest) (env : Env) : PayOut :=
  tryAttempt extCtx req (paymentId env.nowMs env.reqHash) env
    (check_health (check_health initState extCtx.defaultUrl env.now
        env.defaultProbe).state extCtx.fallbackUrl env.now env.fallbackProbe).state
    (selectUrl extCtx (probeHealth env.defaultProbe) (probeHealth env.fallbackProbe))
    (selectName (probeHealth env.defaultProbe) (probeHealth env.fallbackProbe))
    ((probeHealth env.fallbackProbe).status = "healthy")

theorem record_failure_get (cb : CBState) (url : String) (t : Int) :
    dictGet (record_failure cb url t) url = some ⟨t, cbCount cb url + 1⟩ := by
  unfold record_failure cbCount
  cases h : dictGet cb url <;> simp [h, dictGet_set_eq]

theorem cbCount_record_failure (cb : CBState) (url : String) (t : Int) :
    cbCount (record_failure cb url t) url = cbCount cb url + 1 := by
  simp [cbCount, record_failure_get]

theorem recordFailures_five (cb : CBState) (url : String) (t1 t2 t3 t4 t5 : Int) :
    dictGet (recordFailures cb url [t1, t2, t3, t4, t5]) url
      = some ⟨t5, cbCount cb url + 5⟩ := by
  simp [recordFailures, List.foldl, record_failure_get, cbCount_record_failure]

/-- C4: after 5 consecutive `record_failure` calls with no intervening
success, `is_circuit_open` is true within the 30-second window; it is true
only while the count is at least 5 and at most 30 seconds have passed since
the last failure; past the window the next check returns false, resets the
entry to zero, and a subsequent `record_failure` counts from 1. -/
theorem circuit_breaker_lifecycle (cb : CBState) (url : String)
    (t1 t2 t3 t4 t5 now later t' : Int)
    (hwin : now - t5 ≤ 30) (hlate : 30 < later - t5) :
    (is_circuit_open (recordFailures cb url [t1, t2, t3, t4, t5]) url now).1 = true
    ∧ (∀ c : CBState, ∀ m : Int, (is_circuit_open c url m).1 = true →
        ∃ e, dictGet c url = some e ∧ 5 ≤ e.failure_count ∧ m - e.last_failure ≤ 30)
    ∧ (is_circuit_open (recordFailures cb url [t1, t2, t3, t4, t5]) url later).1 = false
    ∧ dictGet (is_circuit_open (recordFailures cb url [t1, t2, t3, t4, t5]) url later).2 url
        = some ⟨0, 0⟩
    ∧ dictGet (record_failure
        (is_circuit_open (recordFailures cb url [t1, t2, t3, t4, t5]) url later).2 url t') url
        = some ⟨t', 1⟩ := by
  have h5 := recordFailures_five cb url t1 t2 t3 t4 t5
  have hle : 5 ≤ cbCount cb url + 5 := Nat.le_add_left 5 (cbCount cb url)
  have hopen : (is_circuit_open (recordFailures cb url [t1, t2, t3, t4, t5]) url later).2
      = dictSet (recordFailures cb url [t1, t2, t3, t4, t5]) url ⟨0, 0⟩ := by
    simp [is_circuit_open, h5, hle, hlate]
  refine ⟨?_, ?_, ?_, ?_, ?_⟩
  · have hnot : ¬ (30 < now - t5) := by omega
    simp [is_circuit_open, h5, hle, hnot]
  · intro c m h
    unfold is_circuit_open at h
    cases hc : dictGet c url with
    | none => rw [hc] at h; simp at h
    | some e =>
        rw [hc] at h
        by_cases hcount : 5 ≤ e.failure_count
        · by_cases h30 : 30 < m - e.last_failure
          · simp [hcount, h30] at h
          · exact ⟨e, rfl, hcount, by omega⟩
        · simp [hcount] at h
  · simp [is_circuit_open, h5, hle, hlate]
  · rw [hopen, dictGet_set_eq]
  · rw [hopen]
    have : dictGet (dictSet (recordFailures cb url [t1, t2, t3, t4, t5]) url
        (⟨0, 0⟩ : CBEntry)) url = some ⟨0, 0⟩ := dictGet_set_eq _ _ _
    simp [record_failure, this, dictGet_set_eq]

theorem circuit_breaker_lifecycle_witness :
    ((10 : Int) - 4 ≤ 30 ∧ 30 < (40 : Int) - 4)
    ∧ (is_circuit_open (recordFailures [] "u" [0, 1, 2, 3, 4]) "u" 10).1 = true :=
  ⟨⟨by decide, by decide⟩,
    (circuit_breaker_lifecycle [] "u" 0 1 2 3 4 10 40 50 (by decide) (by decide)).1⟩

/-- C9: a failure inside the persist or cache operation is swallowed: both
wrappers always return normally, and the success tail returns the
already-built record unchanged for every combination of outcomes. -/
theorem persistence_failure_swallowed (r : PaymentResponse)
    (dbOutcome cacheOutcome : OpResult) :
    save_payment dbOutcome = Except.ok ()
    ∧ cache_payment cacheOutcome = Except.ok ()
    ∧ finishSuccess r dbOutcome cacheOutcome = Except.ok r := by
  cases dbOutcome <;> cases cacheOutcome <;> exact ⟨rfl, rfl, rfl⟩

/-- C6: the payment id is a pure function of the millisecond clock and of
`hash(str(payment_request))`: two invocations that observe the same
millisecond and carry the same request hash receive the same id, here shown
on two distinct environments. -/
theorem payment_id_collision :
    envHashA ≠ envHashB
    ∧ (process_payment defaultCtx ⟨100, none⟩ envHashA initState).result
        = Except.ok ⟨"pay_1700000000000_12345", 100, "processed", "local-simulator", 1000⟩
    ∧ (process_payment defaultCtx ⟨100, none⟩ envHashB initState).result
        = Except.ok ⟨"pay_1700000000000_12345", 100, "processed", "local-simulator", 1000⟩ := by
  refine ⟨fun h => absurd (congrArg Env.fallbackProbe h) (by decide), rfl, rfl⟩

/-- C5 counterexample: a first `check_health` whose probe returns HTTP 500 is
not cached, so a second call 2 seconds later probes again and can return a
different result. -/
theorem health_cache_counterexample :
    ((2 : Int) - 0 < 5)
    ∧ (check_health (check_health initState "http://ext-health:8080" 0
          (ProbeResult.httpErr 500)).state
        "http://ext-health:8080" 2 (ProbeResult.ok healthyBody)).result
      ≠ (check_health initState "http://ext-health:8080" 0 (ProbeResult.httpErr 500)).result
    ∧ (check_health (check_health initState "http://ext-health:8080" 0
          (ProbeResult.httpErr 500)).state
        "http://ext-health:8080" 2 (ProbeResult.ok healthyBody)).probed = true := by
  refine ⟨by decide, by decide, by decide⟩

/-- C7 counterexample: a request with amount -1 is not rejected: it is
processed, persisted and cached exactly like any other request. -/
theorem negative_amount_counterexample :
    (process_payment defaultCtx ⟨-1, none⟩ envSim initState).result
      = Except.ok ⟨"pay_2000_7", -1, "processed", "local-simulator", 1000⟩
    ∧ Event.persist "pay_2000_7" ∈ (process_payment defaultCtx ⟨-1, none⟩ envSim initState).trace
    ∧ Event.cacheWrite "pay_2000_7" ∈ (process_payment defaultCtx ⟨-1, none⟩ envSim initState).trace := by
  refine ⟨rfl, by decide, by decide⟩

/-- C7 (amended): no amount validation exists: for any non-positive amount the
request flows through the simulated path, producing a processed record that is
persisted and cached. -/
theorem negative_amount_processed (a : Rat) (d : Option String) (env : Env)
    (ha : a ≤ 0) :
    (process_payment defaultCtx ⟨a, d⟩ env initState).result
      = Except.ok ⟨paymentId env.nowMs env.reqHash, a, "processed", "local-simulator", env.now⟩
    ∧ (process_payment defaultCtx ⟨a, d⟩ env initState).trace
      = [Event.sleepMs 100, Event.persist (paymentId env.nowMs env.reqHash),
          Event.cacheWrite (paymentId env.nowMs env.reqHash)] :=
  ⟨rfl, rfl⟩

theorem negative_amount_processed_witness :
    ((-1 : Rat) ≤ 0)
    ∧ (process_payment defaultCtx ⟨-1, none⟩ envSim initState).result
        = Except.ok ⟨paymentId 2000 7, -1, "processed", "local-simulator", 1000⟩ :=
  ⟨by decide, (negative_amount_processed (-1) none envSim (by decide)).1⟩

/-- C8 counterexample: under the default configuration the returned (and
persisted, and cached) record carries processor "local-simulator", which is
neither the primary nor the secondary identity. -/
theorem processor_identity_counterexample :
    (process_payment defaultCtx ⟨100, none⟩ envSim initState).result
      = Except.ok ⟨"pay_2000_7", 100, "processed", "local-simulator", 1000⟩
    ∧ ("local-simulator" : String) ≠ "default"
    ∧ ("local-simulator" : String) ≠ "fallback" := by
  refine ⟨rfl, by decide, by decide⟩

/-- C2 counterexample: with the circuit open for the external default URL,
`process_payment` still POSTs to that URL — the breaker is never consulted. -/
theorem circuit_ignored_counterexample :
    (is_circuit_open cbOpenExt "http://ext-default:8080" 110).1 = true
    ∧ Event.payPost "http://ext-default:8080"
        ∈ (process_payment extCtx ⟨100, none⟩ envAllPostsFail initState).trace := by
  refine ⟨by decide, by decide⟩

/-- C1 counterexample: (a) when the fallback is the selected endpoint and its
attempt fails, the error is surfaced with the default never attempted; (b)
when the default is selected, fails with a non-200 and the fallback is
healthy, the fallback is attempted twice, not exactly once. -/
theorem failover_counterexample :
    (process_payment extCtx ⟨100, none⟩ envFbSelected initState).result
      = Except.error "Payment processing failed"
    ∧ payPosts (process_payment extCtx ⟨100, none⟩ envFbSelected initState).trace
        = ["http://ext-fallback:8080"]
    ∧ payPosts (process_payment extCtx ⟨100, none⟩ envAllPostsFail initState).trace
        = ["http://ext-default:8080", "http://ext-fallback:8080", "http://ext-fallback:8080"] := by
  refine ⟨rfl, by decide, by decide⟩

theorem check_health_fresh (st : ProcState) (url : String) (now : Int)
    (p : ProbeResult) (hfresh : dictGet st.last_health_check url = none) :
    check_health st url now p = check_health_live st url now p := by
  unfold check_health
  rw [hfresh]

theorem check_health_live_ext (st : ProcState) (url : String) (now : Int)
    (p : ProbeResult) (hpp : containsPP url = false) :
    (check_health_live st url now p).result = probeHealth p
    ∧ (check_health_live st url now p).probed = true := by
  cases p <;> simp [check_health_live, hpp, probeHealth]

theorem check_health_live_other (st : ProcState) (url : String) (now : Int)
    (p : ProbeResult) (k : String) (hne : url ≠ k) :
    dictGet (check_health_live st url now p).state.health_cache k
      = dictGet st.health_cache k
    ∧ dictGet (check_health_live st url now p).state.last_health_check k
      = dictGet st.last_health_check k := by
  unfold check_health_live
  by_cases hpp : containsPP url <;>
    cases p <;> simp [hpp, dictGet_set_ne _ _ _ _ hne]

theorem check_health_other (st : ProcState) (url : String) (now : Int)
    (p : ProbeResult) (k : String) (hne : url ≠ k) :
    dictGet (check_health st url now p).state.health_cache k
      = dictGet st.health_cache k
    ∧ dictGet (check_health st url now p).state.last_health_check k
      = dictGet st.last_health_check k := by
  unfold check_health
  cases hl : dictGet st.last_health_check url with
  | none => exact check_health_live_other st url now p k hne
  | some t =>
      by_cases h5 : now - t < 5
      · simp [h5]
      · simp [h5]
        exact check_health_live_other st url now p k hne

/-- C5 (amended): only healthy results are cached. A first fresh call whose
probe succeeds (or whose URL is simulated) is cached and stamped, so a second
call within 5 seconds returns the identical result without probing; a first
call whose probe fails caches nothing, leaves the state untouched, and the
second call probes again. -/
theorem health_cache_amended (st : ProcState) (url : String) (now now2 : Int)
    (p p2 : ProbeResult)
    (hfresh : dictGet st.last_health_check url = none)
    (hwin : now2 - now < 5) :
    (((∃ h, p = ProbeResult.ok h) ∨ containsPP url = true) →
      (check_health (check_health st url now p).state url now2 p2).result
        = (check_health st url now p).result
      ∧ (check_health (check_health st url now p).state url now2 p2).probed = false)
    ∧ ((∀ h, p ≠ ProbeResult.ok h) → containsPP url = false →
      (check_health st url now p).state = st
      ∧ (check_health st url now p).probed = true
      ∧ (check_health (check_health st url now p).state url now2 p2).probed = true) := by
  have hch := check_health_fresh st url now p hfresh
  constructor
  · intro hok
    rw [hch]
    by_cases hpp : containsPP url
    · simp [check_health_live, hpp, check_health, dictGet_set_eq, hwin]
    · rcases hok with ⟨h, rfl⟩ | hpp'
      · simp [check_health_live, hpp, check_health, dictGet_set_eq, hwin]
      · exact absurd hpp' (by simpa using hpp)
  · intro hnotok hpp
    have hstate : (check_health st url now p).state = st := by
      rw [hch]
      cases p with
      | ok h => exact absurd rfl (hnotok h)
      | httpErr c => simp [check_health_live, hpp]
      | transportErr m => simp [check_health_live, hpp]
    refine ⟨hstate, ?_, ?_⟩
    · rw [hch]
      cases p with
      | ok h => exact absurd rfl (hnotok h)
      | httpErr c => simp [check_health_live, hpp]
      | transportErr m => simp [check_health_live, hpp]
    · rw [hstate, check_health_fresh st url now2 p2 hfresh]
      exact (check_health_live_ext st url now2 p2 (by simpa using hpp)).2

theorem check_health_fresh_ext (st : ProcState) (url : String) (now : Int)
    (p : ProbeResult) (hfresh : dictGet st.last_health_check url = none)
    (hpp : containsPP url = false) :
    (check_health st url now p).result = probeHealth p
    ∧ (check_health st url now p).probed = true := by
  rw [check_health_fresh st url now p hfresh]
  exact check_health_live_ext st url now p hpp

theorem select_default (ctx : Ctx) (h1 h2 : Health) (hd : h1.status = "healthy") :
    selectUrl ctx h1 h2 = ctx.defaultUrl ∧ selectName h1 h2 = "default" := by
  simp [selectUrl, selectName, hd]

theorem select_fb (ctx : Ctx) (h1 h2 : Health) (hd : h1.status ≠ "healthy")
    (hf : h2.status = "healthy") :
    selectUrl ctx h1 h2 = ctx.fallbackUrl ∧ selectName h1 h2 = "fallback" := by
  simp [selectUrl, selectName, hd, hf]

theorem select_default_of (ctx : Ctx) (h1 h2 : Health)
    (hsel : h1.status = "healthy" ∨ h2.status ≠ "healthy") :
    selectUrl ctx h1 h2 = ctx.defaultUrl ∧ selectName h1 h2 = "default" := by
  rcases hsel with h | h
  · exact select_default ctx h1 h2 h
  · unfold selectUrl selectName
    by_cases h1h : h1.status = "healthy" <;> simp [h1h, h]

theorem process_payment_ext_unfold (req : PaymentRequest) (env : Env) :
    process_payment extCtx req env initState
      = ⟨(extAttempt req env).result, (extAttempt req env).state,
          Event.probe extCtx.defaultUrl :: Event.probe extCtx.fallbackUrl
            :: (extAttempt req env).trace,
          (extAttempt req env).nextK⟩ := by
  have l1 := check_health_fresh_ext initState extCtx.defaultUrl env.now
    env.defaultProbe rfl (by decide)
  have hfb : dictGet (check_health initState extCtx.defaultUrl env.now
      env.defaultProbe).state.last_health_check extCtx.fallbackUrl = none := by
    rw [(check_health_other initState extCtx.defaultUrl env.now env.defaultProbe
      extCtx.fallbackUrl (by decide)).2]
    rfl
  have l2 := check_health_fresh_ext (check_health initState extCtx.defaultUrl
      env.now env.defaultProbe).state extCtx.fallbackUrl env.now
    env.fallbackProbe hfb (by decide)
  simp only [process_payment, extAttempt, l1.1, l1.2, l2.1, l2.2]
  rfl

theorem health_cache_amended_witness :
    (dictGet initState.last_health_check "http://ext-health:8080" = none
      ∧ (2 : Int) - 0 < 5)
    ∧ (check_health (check_health initState "http://ext-health:8080" 0
          (ProbeResult.ok healthyBody)).state "http://ext-health:8080" 2
          (ProbeResult.ok healthyBody)).probed = false :=
  ⟨⟨rfl, by decide⟩,
    ((health_cache_amended initState "http://ext-health:8080" 0 2
        (ProbeResult.ok healthyBody) (ProbeResult.ok healthyBody) rfl
        (by decide)).1 (Or.inl ⟨healthyBody, rfl⟩)).2⟩

theorem tryAttempt_posts_selected (ctx : Ctx) (req : PaymentRequest)
    (pid : String) (env : Env) (st : ProcState) (purl pname : String)
    (fbH : Bool) (hpp : containsPP purl = false) :
    Event.payPost purl ∈ (tryAttempt ctx req pid env st purl pname fbH).trace := by
  unfold tryAttempt
  rw [if_neg (by simp [hpp])]
  cases hE : env.payEnv 0 with
  | ok => simp
  | httpErr c =>
      by_cases hb : (pname = "default" && fbH) = true
      · rw [if_pos hb]
        cases hf : (process_with_fallback ctx req pid env st 1).result <;> simp [hf]
      · rw [if_neg hb]
        by_cases hd : pname = "default"
        · simp [hd]
        · simp [hd]
  | transportErr m =>
      by_cases hd : pname = "default"
      · simp [hd]
      · simp [hd]

/-- C2 (amended): `process_payment` never consults the circuit breaker: even
while `is_circuit_open` holds for the preferred (default) endpoint, a live
POST is still issued against it whenever its health probe reports healthy. -/
theorem circuit_never_consulted (cb : CBState) (m : Int) (req : PaymentRequest)
    (env : Env)
    (hopen : (is_circuit_open cb extCtx.defaultUrl m).1 = true)
    (hd : (probeHealth env.defaultProbe).status = "healthy") :
    Event.payPost extCtx.defaultUrl ∈ (process_payment extCtx req env initState).trace := by
  rw [process_payment_ext_unfold]
  have hsel := (select_default extCtx (probeHealth env.defaultProbe)
    (probeHealth env.fallbackProbe) hd).1
  simp only [List.mem_cons]
  right; right
  unfold extAttempt
  rw [hsel]
  exact tryAttempt_posts_selected extCtx req _ env _ _ _ _ (by decide)

theorem circuit_never_consulted_witness :
    ((is_circuit_open cbOpenExt extCtx.defaultUrl 110).1 = true
      ∧ (probeHealth envAllPostsFail.defaultProbe).status = "healthy")
    ∧ Event.payPost extCtx.defaultUrl
        ∈ (process_payment extCtx ⟨100, none⟩ envAllPostsFail initState).trace :=
  ⟨⟨by decide, by decide⟩,
    circuit_never_consulted cbOpenExt 110 ⟨100, none⟩ envAllPostsFail
      (by decide) (by decide)⟩

/-- C3 counterexample: with the primary failing once and the secondary then
succeeding, the record is processed via the fallback, but no circuit-breaker
recording happens anywhere on the payment path. -/
theorem record_calls_counterexample :
    (process_payment extCtx ⟨100, none⟩ envFirstPostTimesOut initState).result
      = Except.ok ⟨"pay_1000000_42", 100, "processed", "fallback", 1000⟩
    ∧ Event.recordFailureEv "http://ext-default:8080"
        ∉ (process_payment extCtx ⟨100, none⟩ envFirstPostTimesOut initState).trace
    ∧ Event.recordSuccessEv "http://ext-fallback:8080"
        ∉ (process_payment extCtx ⟨100, none⟩ envFirstPostTimesOut initState).trace := by
  refine ⟨rfl, by decide, by decide⟩

theorem process_with_fallback_no_record (ctx : Ctx) (req : PaymentRequest)
    (pid : String) (env : Env) (st : ProcState) (k : Nat) (u : String) :
    Event.recordFailureEv u ∉ (process_with_fallback ctx req pid env st k).trace
    ∧ Event.recordSuccessEv u ∉ (process_with_fallback ctx req pid env st k).trace := by
  unfold process_with_fallback
  split
  · simp
  · split <;> simp

theorem tryAttempt_no_record (ctx : Ctx) (req : PaymentRequest) (pid : String)
    (env : Env) (st : ProcState) (purl pname : String) (fbH : Bool) (u : String) :
    Event.recordFailureEv u ∉ (tryAttempt ctx req pid env st purl pname fbH).trace
    ∧ Event.recordSuccessEv u ∉ (tryAttempt ctx req pid env st purl pname fbH).trace := by
  have hfb1 : ∀ (st' : ProcState) (k : Nat),
      Event.recordFailureEv u ∉ (process_with_fallback ctx req pid env st' k).trace :=
    fun st' k => (process_with_fallback_no_record ctx req pid env st' k u).1
  have hfb2 : ∀ (st' : ProcState) (k : Nat),
      Event.recordSuccessEv u ∉ (process_with_fallback ctx req pid env st' k).trace :=
    fun st' k => (process_with_fallback_no_record ctx req pid env st' k u).2
  unfold tryAttempt
  by_cases hpp : containsPP purl = true
  · rw [if_pos hpp]; simp
  · rw [if_neg hpp]
    cases hE : env.payEnv 0 with
    | ok => simp
    | httpErr c =>
        by_cases hb : (pname = "default" && fbH) = true
        · rw [if_pos hb]
          cases hf : (process_with_fallback ctx req pid env st 1).result <;>
            simp [hf, hfb1, hfb2]
        · rw [if_neg hb]
          by_cases hd : pname = "default" <;> simp [hd, hfb1, hfb2]
    | transportErr mm =>
        by_cases hd : pname = "default" <;> simp [hd, hfb1, hfb2]

theorem process_payment_no_record (ctx : Ctx) (req : PaymentRequest)
    (env : Env) (st : ProcState) (u : String) :
    Event.recordFailureEv u ∉ (process_payment ctx req env st).trace
    ∧ Event.recordSuccessEv u ∉ (process_payment ctx req env st).trace := by
  have hatt := tryAttempt_no_record ctx req (paymentId env.nowMs env.reqHash) env
    (check_health (check_health st ctx.defaultUrl env.now env.defaultProbe).state
      ctx.fallbackUrl env.now env.fallbackProbe).state
    (selectUrl ctx (check_health st ctx.defaultUrl env.now env.defaultProbe).result
      (check_health (check_health st ctx.defaultUrl env.now env.defaultProbe).state
        ctx.fallbackUrl env.now env.fallbackProbe).result)
    (selectName (check_health st ctx.defaultUrl env.now env.defaultProbe).result
      (check_health (check_health st ctx.defaultUrl env.now env.defaultProbe).state
        ctx.fallbackUrl env.now env.fallbackProbe).result)
    ((check_health (check_health st ctx.defaultUrl env.now env.defaultProbe).state
      ctx.fallbackUrl env.now env.fallbackProbe).result.status = "healthy") u
  unfold process_payment
  constructor <;>
  · dsimp only
    simp only [List.mem_append, not_or]
    refine ⟨⟨?_, ?_⟩, ?_⟩
    · split <;> simp
    · split <;> simp
    · first
      | exact hatt.1
      | exact hatt.2

/-- C3 (amended): a payment against a healthy default that fails once, with
the fallback then succeeding, yields a processed record tagged "fallback"
(the secondary identity) — but no `record_failure` or `record_success` call
is observed anywhere: `app.py`'s payment path never touches the circuit
breaker. -/
theorem fallback_success_no_recording (env : Env) (m : String) (a : Rat)
    (d : Option String)
    (hd : (probeHealth env.defaultProbe).status = "healthy")
    (h0 : env.payEnv 0 = PayResult.transportErr m)
    (h1 : env.payEnv 1 = PayResult.ok) :
    (process_payment extCtx ⟨a, d⟩ env initState).result
      = Except.ok ⟨paymentId env.nowMs env.reqHash, a, "processed", "fallback", env.now⟩
    ∧ (∀ u, Event.recordFailureEv u ∉ (process_payment extCtx ⟨a, d⟩ env initState).trace)
    ∧ (∀ u, Event.recordSuccessEv u ∉ (process_payment extCtx ⟨a, d⟩ env initState).trace) := by
  refine ⟨?_, fun u => (process_payment_no_record extCtx ⟨a, d⟩ env initState u).1,
    fun u => (process_payment_no_record extCtx ⟨a, d⟩ env initState u).2⟩
  rw [process_payment_ext_unfold]
  dsimp only
  unfold extAttempt
  rw [(select_default extCtx (probeHealth env.defaultProbe)
      (probeHealth env.fallbackProbe) hd).1,
    (select_default extCtx (probeHealth env.defaultProbe)
      (probeHealth env.fallbackProbe) hd).2]
  unfold tryAttempt
  rw [if_neg (by decide)]
  simp only [h0, if_true]
  unfold process_with_fallback
  rw [if_neg (by decide)]
  simp only [h1]

theorem fallback_success_no_recording_witness :
    ((probeHealth envFirstPostTimesOut.defaultProbe).status = "healthy"
      ∧ envFirstPostTimesOut.payEnv 0 = PayResult.transportErr "timeout"
      ∧ envFirstPostTimesOut.payEnv 1 = PayResult.ok)
    ∧ (process_payment extCtx ⟨100, none⟩ envFirstPostTimesOut initState).result
        = Except.ok ⟨paymentId 1000000 42, 100, "processed", "fallback", 1000⟩ :=
  ⟨⟨by decide, by decide, by decide⟩,
    (fallback_success_no_recording envFirstPostTimesOut "timeout" 100 none
      (by decide) (by decide) (by decide)).1⟩

theorem process_with_fallback_processor (ctx : Ctx) (req : PaymentRequest)
    (pid : String) (env : Env) (st : ProcState) (k : Nat) (r : PaymentResponse)
    (h : (process_with_fallback ctx req pid env st k).result = Except.ok r) :
    r.processor = "local-simulator-fallback" ∨ r.processor = "fallback" := by
  unfold process_with_fallback at h
  split at h
  · simp only [Except.ok.injEq] at h
    subst h
    exact Or.inl rfl
  · split at h
    · simp only [Except.ok.injEq] at h
      subst h
      exact Or.inr rfl
    · exact absurd h (by simp)

theorem selectName_cases (h1 h2 : Health) :
    selectName h1 h2 = "default" ∨ selectName h1 h2 = "fallback" := by
  unfold selectName
  split
  · exact Or.inl rfl
  · split
    · exact Or.inr rfl
    · exact Or.inl rfl

theorem tryAttempt_processor (ctx : Ctx) (req : PaymentRequest) (pid : String)
    (env : Env) (st : ProcState) (purl pname : String) (fbH : Bool)
    (r : PaymentResponse)
    (h : (tryAttempt ctx req pid env st purl pname fbH).result = Except.ok r) :
    r.processor = "local-simulator" ∨ r.processor = pname
    ∨ r.processor = "local-simulator-fallback" ∨ r.processor = "fallback" := by
  unfold tryAttempt at h
  by_cases hpp : containsPP purl = true
  · rw [if_pos hpp] at h
    simp only [Except.ok.injEq] at h
    subst h
    exact Or.inl rfl
  · rw [if_neg hpp] at h
    cases hE : env.payEnv 0 with
    | ok =>
        simp only [hE, Except.ok.injEq] at h
        subst h
        exact Or.inr (Or.inl rfl)
    | httpErr c =>
        simp only [hE] at h
        by_cases hb : (pname = "default" && fbH) = true
        · rw [if_pos hb] at h
          cases hf : (process_with_fallback ctx req pid env st 1).result with
          | ok r' =>
              simp only [hf, Except.ok.injEq] at h
              subst h
              rcases process_with_fallback_processor ctx req pid env st 1 r' hf
                with h' | h'
              · exact Or.inr (Or.inr (Or.inl h'))
              · exact Or.inr (Or.inr (Or.inr h'))
          | error e =>
              simp only [hf] at h
              rcases process_with_fallback_processor ctx req pid env _ _ r h
                with h' | h'
              · exact Or.inr (Or.inr (Or.inl h'))
              · exact Or.inr (Or.inr (Or.inr h'))
        · rw [if_neg hb] at h
          by_cases hd : pname = "default"
          · rw [if_pos hd] at h
            dsimp only at h
            rcases process_with_fallback_processor ctx req pid env st 1 r h
              with h' | h'
            · exact Or.inr (Or.inr (Or.inl h'))
            · exact Or.inr (Or.inr (Or.inr h'))
          · rw [if_neg hd] at h
            exact absurd h (by simp)
    | transportErr mm =>
        simp only [hE] at h
        by_cases hd : pname = "default"
        · rw [if_pos hd] at h
          dsimp only at h
          rcases process_with_fallback_processor ctx req pid env st 1 r h
            with h' | h'
          · exact Or.inr (Or.inr (Or.inl h'))
          · exact Or.inr (Or.inr (Or.inr h'))
        · rw [if_neg hd] at h
          exact absurd h (by simp)

/-- C8 (amended): every record `process_payment` returns (and therefore
persists and caches, since the success paths persist and cache exactly the
returned response) carries one of the four processor strings the source can
write: "default", "fallback", "local-simulator" or
"local-simulator-fallback" — under the default configuration it is
"local-simulator", not a primary/secondary identity. -/
theorem processor_identity_amended (ctx : Ctx) (req : PaymentRequest)
    (env : Env) (st : ProcState) (r : PaymentResponse)
    (h : (process_payment ctx req env st).result = Except.ok r) :
    r.processor
      ∈ (["default", "fallback", "local-simulator", "local-simulator-fallback"] :
          List String) := by
  unfold process_payment at h
  dsimp only at h
  have hp := tryAttempt_processor _ _ _ _ _ _ _ _ r h
  have hsel := selectName_cases
    (check_health st ctx.defaultUrl env.now env.defaultProbe).result
    (check_health (check_health st ctx.defaultUrl env.now env.defaultProbe).state
      ctx.fallbackUrl env.now env.fallbackProbe).result
  rcases hp with h' | h' | h' | h'
  · simp [h']
  · rcases hsel with hs | hs <;> simp [h', hs]
  · simp [h']
  · simp [h']

theorem processor_identity_amended_witness :
    ((process_payment defaultCtx ⟨100, none⟩ envSim initState).result
        = Except.ok ⟨"pay_2000_7", 100, "processed", "local-simulator", 1000⟩)
    ∧ (⟨"pay_2000_7", 100, "processed", "local-simulator", (1000 : Int)⟩ :
        PaymentResponse).processor
      ∈ (["default", "fallback", "local-simulator", "local-simulator-fallback"] :
          List String) :=
  ⟨rfl, processor_identity_amended defaultCtx ⟨100, none⟩ envSim initState _ rfl⟩

theorem process_with_fallback_ext (req : PaymentRequest) (pid : String)
    (env : Env) (st : ProcState) (k : Nat) :
    process_with_fallback extCtx req pid env st k
      = match env.payEnv k with
        | PayResult.ok =>
            ⟨Except.ok ⟨pid, req.amount, "processed", "fallback", env.now⟩, st,
              [Event.payPost extCtx.fallbackUrl, Event.persist pid,
                Event.cacheWrite pid], k + 1⟩
        | _ => ⟨Except.error "Payment processing failed", st,
            [Event.payPost extCtx.fallbackUrl], k + 1⟩ := by
  unfold process_with_fallback
  rw [if_neg (by decide)]

theorem failover_fb_selected (req : PaymentRequest) (env : Env)
    (hd : (probeHealth env.defaultProbe).status ≠ "healthy")
    (hf : (probeHealth env.fallbackProbe).status = "healthy")
    (h0 : env.payEnv 0 ≠ PayResult.ok) :
    (process_payment extCtx req env initState).result
      = Except.error "Payment processing failed"
    ∧ payPosts (process_payment extCtx req env initState).trace
      = [extCtx.fallbackUrl] := by
  rw [process_payment_ext_unfold]
  dsimp only
  unfold extAttempt
  rw [(select_fb extCtx _ _ hd hf).1, (select_fb extCtx _ _ hd hf).2]
  unfold tryAttempt
  rw [if_neg (by decide)]
  cases hE : env.payEnv 0 with
  | ok => exact absurd hE h0
  | httpErr c =>
      simp only [hE]
      rw [if_neg (fun hc => Bool.noConfusion hc)]
      rw [if_neg (by decide)]
      exact ⟨rfl, rfl⟩
  | transportErr m =>
      simp only [hE]
      rw [if_neg (by decide)]
      exact ⟨rfl, rfl⟩

theorem failover_transport (req : PaymentRequest) (env : Env)
    (hsel : (probeHealth env.defaultProbe).status = "healthy"
      ∨ (probeHealth env.fallbackProbe).status ≠ "healthy")
    (m : String) (h0 : env.payEnv 0 = PayResult.transportErr m) :
    payPosts (process_payment extCtx req env initState).trace
      = [extCtx.defaultUrl, extCtx.fallbackUrl]
    ∧ (env.payEnv 1 = PayResult.ok →
        (process_payment extCtx req env initState).result
          = Except.ok ⟨paymentId env.nowMs env.reqHash, req.amount, "processed",
              "fallback", env.now⟩)
    ∧ (env.payEnv 1 ≠ PayResult.ok →
        (process_payment extCtx req env initState).result
          = Except.error "Payment processing failed") := by
  rw [process_payment_ext_unfold]
  dsimp only
  unfold extAttempt
  rw [(select_default_of extCtx _ _ hsel).1, (select_default_of extCtx _ _ hsel).2]
  unfold tryAttempt
  rw [if_neg (by decide)]
  simp only [h0, if_true]
  rw [process_with_fallback_ext]
  refine ⟨?_, ?_, ?_⟩
  · cases hE1 : env.payEnv 1 <;> simp only [hE1] <;> rfl
  · intro h1
    simp only [h1]
  · intro h1
    cases hE1 : env.payEnv 1 with
    | ok => exact absurd hE1 h1
    | httpErr c => simp only [hE1]
    | transportErr mm => simp only [hE1]

theorem failover_non200_healthy_fb (req : PaymentRequest) (env : Env)
    (hd : (probeHealth env.defaultProbe).status = "healthy")
    (hf : (probeHealth env.fallbackProbe).status = "healthy")
    (c : Int) (h0 : env.payEnv 0 = PayResult.httpErr c) :
    (env.payEnv 1 = PayResult.ok →
      payPosts (process_payment extCtx req env initState).trace
        = [extCtx.defaultUrl, extCtx.fallbackUrl]
      ∧ (process_payment extCtx req env initState).result
        = Except.ok ⟨paymentId env.nowMs env.reqHash, req.amount, "processed",
            "fallback", env.now⟩)
    ∧ (env.payEnv 1 ≠ PayResult.ok →
      payPosts (process_payment extCtx req env initState).trace
        = [extCtx.defaultUrl, extCtx.fallbackUrl, extCtx.fallbackUrl]
      ∧ (env.payEnv 2 = PayResult.ok →
          (process_payment extCtx req env initState).result
            = Except.ok ⟨paymentId env.nowMs env.reqHash, req.amount, "processed",
                "fallback", env.now⟩)
      ∧ (env.payEnv 2 ≠ PayResult.ok →
          (process_payment extCtx req env initState).result
            = Except.error "Payment processing failed")) := by
  rw [process_payment_ext_unfold]
  dsimp only
  unfold extAttempt
  rw [(select_default extCtx _ _ hd).1, (select_default extCtx _ _ hd).2]
  unfold tryAttempt
  rw [if_neg (by decide)]
  simp only [h0]
  rw [if_pos (by simp [hf])]
  rw [process_with_fallback_ext]
  constructor
  · intro h1
    simp only [h1]
    exact ⟨by trivial, by trivial⟩
  · intro h1
    cases hE1 : env.payEnv 1 with
    | ok => exact absurd hE1 h1
    | httpErr c1 =>
        simp only [hE1]
        rw [process_with_fallback_ext]
        refine ⟨?_, ?_, ?_⟩
        · cases hE2 : env.payEnv 2 <;> simp only [hE2] <;> rfl
        · intro h2; simp only [h2]
        · intro h2
          cases hE2 : env.payEnv 2 with
          | ok => exact absurd hE2 h2
          | httpErr c2 => simp only [hE2]
          | transportErr m2 => simp only [hE2]
    | transportErr m1 =>
        simp only [hE1]
        rw [process_with_fallback_ext]
        refine ⟨?_, ?_, ?_⟩
        · cases hE2 : env.payEnv 2 <;> simp only [hE2] <;> rfl
        · intro h2; simp only [h2]
        · intro h2
          cases hE2 : env.payEnv 2 with
          | ok => exact absurd hE2 h2
          | httpErr c2 => simp only [hE2]
          | transportErr m2 => simp only [hE2]

theorem failover_non200_unhealthy_fb (req : PaymentRequest) (env : Env)
    (hf : (probeHealth env.fallbackProbe).status ≠ "healthy")
    (c : Int) (h0 : env.payEnv 0 = PayResult.httpErr c) :
    payPosts (process_payment extCtx req env initState).trace
      = [extCtx.defaultUrl, extCtx.fallbackUrl]
    ∧ (env.payEnv 1 = PayResult.ok →
        (process_payment extCtx req env initState).result
          = Except.ok ⟨paymentId env.nowMs env.reqHash, req.amount, "processed",
              "fallback", env.now⟩)
    ∧ (env.payEnv 1 ≠ PayResult.ok →
        (process_payment extCtx req env initState).result
          = Except.error "Payment processing failed") := by
  rw [process_payment_ext_unfold]
  dsimp only
  unfold extAttempt
  rw [(select_default_of extCtx _ _ (Or.inr hf)).1,
    (select_default_of extCtx _ _ (Or.inr hf)).2]
  unfold tryAttempt
  rw [if_neg (by decide)]
  simp only [h0]
  rw [if_neg (by simp [hf])]
  simp only [if_true]
  rw [process_with_fallback_ext]
  refine ⟨?_, ?_, ?_⟩
  · cases hE1 : env.payEnv 1 <;> simp only [hE1] <;> rfl
  · intro h1
    simp only [h1]
  · intro h1
    cases hE1 : env.payEnv 1 with
    | ok => exact absurd hE1 h1
    | httpErr c1 => simp only [hE1]
    | transportErr m1 => simp only [hE1]

/-- C1 (amended): only when the selected endpoint is the default does a
failed attempt trigger the alternate. The default is selected exactly when
its probe reports healthy or the fallback's does not (including the
both-unhealthy best-effort selection of app.py lines 128-131).
(1) If the fallback was selected and its attempt fails, the error is
surfaced at once and the default is never attempted. (2) Whenever the
default is selected and its attempt raises a transport error, the fallback
is attempted exactly once, and the error is surfaced only if that attempt
also fails. (3) If the default was selected, returned a non-200 and the
fallback was reported healthy, the fallback is attempted once when that
attempt succeeds, twice when it fails, and the error is surfaced only when
every attempt failed. (4) Whenever the fallback is not reported healthy —
so the default is selected even if its own probe is also unhealthy — and
the default attempt returns a non-200, the fallback is still attempted
exactly once via the exception handler. -/
theorem failover_amended (req : PaymentRequest) (env : Env) :
    ((probeHealth env.defaultProbe).status ≠ "healthy" →
      (probeHealth env.fallbackProbe).status = "healthy" →
      env.payEnv 0 ≠ PayResult.ok →
      (process_payment extCtx req env initState).result
        = Except.error "Payment processing failed"
      ∧ payPosts (process_payment extCtx req env initState).trace
        = [extCtx.fallbackUrl])
    ∧ (((probeHealth env.defaultProbe).status = "healthy"
        ∨ (probeHealth env.fallbackProbe).status ≠ "healthy") →
      ∀ m, env.payEnv 0 = PayResult.transportErr m →
      payPosts (process_payment extCtx req env initState).trace
        = [extCtx.defaultUrl, extCtx.fallbackUrl]
      ∧ (env.payEnv 1 = PayResult.ok →
          (process_payment extCtx req env initState).result
            = Except.ok ⟨paymentId env.nowMs env.reqHash, req.amount, "processed",
                "fallback", env.now⟩)
      ∧ (env.payEnv 1 ≠ PayResult.ok →
          (process_payment extCtx req env initState).result
            = Except.error "Payment processing failed"))
    ∧ ((probeHealth env.defaultProbe).status = "healthy" →
      (probeHealth env.fallbackProbe).status = "healthy" →
      ∀ c, env.payEnv 0 = PayResult.httpErr c →
      (env.payEnv 1 = PayResult.ok →
        payPosts (process_payment extCtx req env initState).trace
          = [extCtx.defaultUrl, extCtx.fallbackUrl]
        ∧ (process_payment extCtx req env initState).result
          = Except.ok ⟨paymentId env.nowMs env.reqHash, req.amount, "processed",
              "fallback", env.now⟩)
      ∧ (env.payEnv 1 ≠ PayResult.ok →
        payPosts (process_payment extCtx req env initState).trace
          = [extCtx.defaultUrl, extCtx.fallbackUrl, extCtx.fallbackUrl]
        ∧ (env.payEnv 2 = PayResult.ok →
            (process_payment extCtx req env initState).result
              = Except.ok ⟨paymentId env.nowMs env.reqHash, req.amount, "processed",
                  "fallback", env.now⟩)
        ∧ (env.payEnv 2 ≠ PayResult.ok →
            (process_payment extCtx req env initState).result
              = Except.error "Payment processing failed")))
    ∧ ((probeHealth env.fallbackProbe).status ≠ "healthy" →
      ∀ c, env.payEnv 0 = PayResult.httpErr c →
      payPosts (process_payment extCtx req env initState).trace
        = [extCtx.defaultUrl, extCtx.fallbackUrl]
      ∧ (env.payEnv 1 = PayResult.ok →
          (process_payment extCtx req env initState).result
            = Except.ok ⟨paymentId env.nowMs env.reqHash, req.amount, "processed",
                "fallback", env.now⟩)
      ∧ (env.payEnv 1 ≠ PayResult.ok →
          (process_payment extCtx req env initState).result
            = Except.error "Payment processing failed")) :=
  ⟨fun hd hf h0 => failover_fb_selected req env hd hf h0,
    fun hsel m h0 => failover_transport req env hsel m h0,
    fun hd hf c h0 => failover_non200_healthy_fb req env hd hf c h0,
    fun hf c h0 => failover_non200_unhealthy_fb req env hf c h0⟩

theorem failover_amended_witness :
    ((probeHealth envFbSelected.defaultProbe).status ≠ "healthy"
      ∧ (probeHealth envFbSelected.fallbackProbe).status = "healthy"
      ∧ envFbSelected.payEnv 0 ≠ PayResult.ok)
    ∧ (process_payment extCtx ⟨100, none⟩ envFbSelected initState).result
        = Except.error "Payment processing failed" :=
  ⟨⟨by decide, by decide, by decide⟩,
    ((failover_amended ⟨100, none⟩ envFbSelected).1 (by decide) (by decide)
      (by decide)).1⟩

theorem check_health_sim (st : ProcState) (url : String) (now : Int)
    (p : ProbeResult) (hpp : containsPP url = true) (hinv : simInv st url) :
    (check_health st url now p).result = simHealth
    ∧ (check_health st url now p).probed = false := by
  unfold check_health
  cases hl : dictGet st.last_health_check url with
  | none => simp [check_health_live, hpp]
  | some t =>
      by_cases h5 : now - t < 5
      · simp [h5, hinv t hl]
      · simp [h5, check_health_live, hpp]

theorem check_health_preserves_simInv (st : ProcState) (url : String)
    (now : Int) (p : ProbeResult) (k : String) (hne : url ≠ k)
    (hinv : simInv st k) : simInv (check_health st url now p).state k := by
  intro t ht
  rw [(check_health_other st url now p k hne).2] at ht
  rw [(check_health_other st url now p k hne).1]
  exact hinv t ht

/-- C10: both default configured URLs contain "payment-processor"; for any
URL containing that substring, `check_health` answers the simulator's
healthy dict without any live probe (given the invariant that only that dict
was ever cached for the URL, which holds from startup); and `process_payment`
under the default configuration always returns a processed record tagged
"local-simulator" whose trace is exactly the 100 ms synthetic sleep, the
persist and the cache write — no probe and no POST ever leaves the process. -/
theorem simulated_path :
    (containsPP DEFAULT_PAYMENT_PROCESSOR_URL = true
      ∧ containsPP FALLBACK_PAYMENT_PROCESSOR_URL = true)
    ∧ (∀ (st : ProcState) (url : String) (now : Int) (p : ProbeResult),
        containsPP url = true → simInv st url →
        (check_health st url now p).result = simHealth
        ∧ (check_health st url now p).probed = false)
    ∧ (∀ (req : PaymentRequest) (env : Env) (st : ProcState),
        simInv st DEFAULT_PAYMENT_PROCESSOR_URL →
        simInv st FALLBACK_PAYMENT_PROCESSOR_URL →
        (process_payment defaultCtx req env st).result
          = Except.ok ⟨paymentId env.nowMs env.reqHash, req.amount, "processed",
              "local-simulator", env.now⟩
        ∧ (process_payment defaultCtx req env st).trace
          = [Event.sleepMs 100, Event.persist (paymentId env.nowMs env.reqHash),
              Event.cacheWrite (paymentId env.nowMs env.reqHash)]) := by
  refine ⟨⟨by decide, by decide⟩,
    fun st url now p hpp hinv => check_health_sim st url now p hpp hinv,
    fun req env st hinv1 hinv2 => ?_⟩
  have l1 := check_health_sim st defaultCtx.defaultUrl env.now env.defaultProbe
    (by decide) hinv1
  have hinv2' : simInv (check_health st defaultCtx.defaultUrl env.now
      env.defaultProbe).state defaultCtx.fallbackUrl :=
    check_health_preserves_simInv st defaultCtx.defaultUrl env.now
      env.defaultProbe defaultCtx.fallbackUrl (by decide) hinv2
  have l2 := check_health_sim (check_health st defaultCtx.defaultUrl env.now
      env.defaultProbe).state defaultCtx.fallbackUrl env.now env.fallbackProbe
    (by decide) hinv2'
  unfold process_payment
  simp only [l1.1, l1.2, l2.1, l2.2]
  unfold tryAttempt
  rw [(select_default defaultCtx simHealth simHealth rfl).1,
    (select_default defaultCtx simHealth simHealth rfl).2]
  rw [if_pos (by decide)]
  exact ⟨rfl, rfl⟩

theorem simulated_path_witness :
    (process_payment defaultCtx ⟨100, none⟩ envSim initState).result
      = Except.ok ⟨paymentId 2000 7, 100, "processed", "local-simulator", 1000⟩ :=
  (simulated_path.2.2 ⟨100, none⟩ envSim initState
    (fun t ht => by simp [initState, dictGet] at ht)
    (fun t ht => by simp [initState, dictGet] at ht)).1

end Rinha
